import Mathlib

/-!
Shallow embedding of the APL dynamicTokenList data source provider.

The repository ships the provider's unit tests
(src/unit/datasource/unittest_dynamictokenlist.cpp) but not the provider
implementation itself, so the provider is modelled from the specification
(spec.md §3-§7), with the unit-test traces as the authority on every
observable behavior.  All definitions are executable so concrete
test traces can be replayed by `decide`.
-/

namespace DynamicTokenList

/-- Modelled from the spec: the two frontiers of the virtual sequence
(§3 PendingRequest.direction). -/
inductive Direction where
  | fwd
  | bwd
deriving DecidableEq, Repr

/-- Modelled from the spec: the error taxonomy of §4.5. -/
inductive ErrorReason where
  | internalError
  | invalidListId
  | inconsistentListId
  | missingListItems
  | loadTimeout
deriving DecidableEq, Repr

/-- Modelled from the spec: §4.1 provider configuration with its defaults
(also checked by DynamicTokenListTest.Configuration). -/
structure DynamicListConfiguration where
  type : String := "dynamicTokenList"
  cacheChunkSize : Nat := 10
  fetchRetries : Nat := 2
  fetchTimeout : Nat := 5000
deriving DecidableEq, Repr

/-- Modelled from the spec: §3 ListState.  `forwardPageToken` /
`backwardPageToken` are `none` when the corresponding frontier is closed. -/
structure ListState (α : Type) where
  listId : String
  items : List α
  baseIndex : Int
  forwardPageToken : Option String
  backwardPageToken : Option String
  presentationToken : String
deriving DecidableEq, Repr

/-- Modelled from the spec: §3 PendingRequest.  `attempts` is the §4.6
per-frontier failed-attempt counter; the deadline timer is modelled by the
external action `fireTimeout` below, so no timestamp is stored. -/
structure PendingRequest where
  correlation : Nat
  listId : String
  direction : Direction
  expectedPageToken : String
  attempts : Nat
deriving DecidableEq, Repr

/-- Modelled from the spec: §6.2 fetch event payload.  The correlation
token is serialized as its decimal string. -/
structure FetchEvent where
  listId : String
  correlationToken : String
  pageToken : String
deriving DecidableEq, Repr

/-- Modelled from the spec: §6.1 seed object.  `listId` and `pageToken` are
`Option` because the provider must reject seeds missing them. -/
structure ListSeed (α : Type) where
  listId : Option String
  pageToken : Option String
  forwardPageToken : Option String
  backwardPageToken : Option String
  items : List α
deriving DecidableEq, Repr

/-- Modelled from the spec: §6.3 update envelope delivered to
`processUpdate`.  The correlation token is `none` when absent. -/
structure UpdateEnvelope (α : Type) where
  presentationToken : String
  listId : String
  correlationToken : Option Nat
  pageToken : String
  nextPageToken : Option String
  items : List α
deriving DecidableEq, Repr

/-- Modelled from the spec: §4.1 provider facade state.  `errors` and
`events` are the (append-only) error queue and the emitted fetch events;
`lastToken` is the correlation counter shared by all lists. -/
structure ProviderState (α : Type) where
  configuration : DynamicListConfiguration
  lists : List (ListState α)
  pending : List PendingRequest
  lastToken : Nat
  errors : List ErrorReason
  events : List FetchEvent
deriving DecidableEq, Repr

/-- Modelled from the spec: a freshly constructed provider owns no lists and
its correlation counter is positioned so that the first issued token is 101
(§8 scenario 1 and DynamicTokenListTest.Basic). -/
def freshProvider (α : Type) (cfg : DynamicListConfiguration) : ProviderState α :=
  { configuration := cfg
    lists := []
    pending := []
    lastToken := 100
    errors := []
    events := [] }

/-- Modelled from the spec: §3 - an empty `nextPageToken` string means the
frontier is closed, i.e. absent. -/
def normalizeToken (t : Option String) : Option String :=
  match t with
  | none => none
  | some str => if str = "" then none else some str

/-- Lookup of a list by its id in the provider's table. -/
def lookupList {α : Type} : List (ListState α) → String → Option (ListState α)
  | [], _ => none
  | l :: ls, lid => if l.listId = lid then some l else lookupList ls lid

/-- Modelled from the spec: §4.4 check 2 - the envelope's correlation token
names a live PendingRequest whose list disagrees with the envelope's list. -/
def inconsistentCorrelation : List PendingRequest → Option Nat → String → Bool
  | [], _, _ => false
  | p :: ps, c, lid =>
    if some p.correlation = c ∧ p.listId ≠ lid then true
    else inconsistentCorrelation ps c lid

/-- First live PendingRequest for the given list and direction. -/
def findPendingFor : List PendingRequest → String → Direction → Option PendingRequest
  | [], _, _ => none
  | p :: ps, lid, d =>
    if p.listId = lid ∧ p.direction = d then some p else findPendingFor ps lid d

/-- Removes every PendingRequest for the given list and direction
(timer cancellation is modelled by this removal). -/
def removePendingFor : List PendingRequest → String → Direction → List PendingRequest
  | [], _, _ => []
  | p :: ps, lid, d =>
    if p.listId = lid ∧ p.direction = d then removePendingFor ps lid d
    else p :: removePendingFor ps lid d

/-- First live PendingRequest carrying the given correlation token. -/
def findPendingByCorrelation : List PendingRequest → Nat → Option PendingRequest
  | [], _ => none
  | p :: ps, c => if p.correlation = c then some p else findPendingByCorrelation ps c

/-- Modelled from the spec: the failed-attempt target of an incoming
envelope with empty `items` - the live PendingRequest of the envelope's
list matched by correlation token or by expected page token
(DynamicTokenListTest.EmptyLazyResponseRetryResolved shows the correlation
alone suffices). -/
def findFailedRequest : List PendingRequest → String → Option Nat → String → Option PendingRequest
  | [], _, _, _ => none
  | p :: ps, lid, c, tok =>
    if p.listId = lid ∧ (some p.correlation = c ∨ p.expectedPageToken = tok) then some p
    else findFailedRequest ps lid c tok

/-- Replaces the list with the given id by the supplied new state. -/
def replaceList {α : Type} : List (ListState α) → ListState α → List (ListState α)
  | [], _ => []
  | l :: ls, l' =>
    if l.listId = l'.listId then l' :: replaceList ls l' else l :: replaceList ls l'

/-- Appends an error record to the provider's error queue. -/
def pushError {α : Type} (s : ProviderState α) (e : ErrorReason) : ProviderState α :=
  { s with errors := s.errors ++ [e] }

/-- Modelled from the spec: §4.3 - every scheduled fetch takes a fresh
correlation token (`lastToken + 1`), registers a PendingRequest and emits a
fetch event whose correlation token is the decimal string of the counter. -/
def issueFetch {α : Type} (s : ProviderState α) (lid : String) (d : Direction)
    (pageToken : String) (attempts : Nat) : ProviderState α :=
  let c := s.lastToken + 1
  { s with
    lastToken := c
    pending := s.pending ++ [⟨c, lid, d, pageToken, attempts⟩]
    events := s.events ++ [⟨lid, Nat.repr c, pageToken⟩] }

/-- The current cursor of the given frontier; `none` when it is closed. -/
def ListState.frontierToken {α : Type} (l : ListState α) : Direction → Option String
  | .fwd => l.forwardPageToken
  | .bwd => l.backwardPageToken

/-- Modelled from the spec: §4.3 FetchScheduler re-evaluation for one
frontier - never schedules on a closed frontier and never duplicates a
PendingRequest for the same (listId, direction). -/
def scheduleFetchIfNeeded {α : Type} (s : ProviderState α) (lid : String)
    (d : Direction) : ProviderState α :=
  match lookupList s.lists lid with
  | none => s
  | some l =>
    match l.frontierToken d with
    | none => s
    | some t =>
      match findPendingFor s.pending lid d with
      | some _ => s
      | none => issueFetch s lid d t 0

/-- Modelled from the spec: §6.1 - the ListState created from a valid
seed (frontier tokens normalized, base index 0). -/
def seedListState {α : Type} (lid : String) (seed : ListSeed α) : ListState α :=
  { listId := lid
    items := seed.items
    baseIndex := 0
    forwardPageToken := normalizeToken seed.forwardPageToken
    backwardPageToken := normalizeToken seed.backwardPageToken
    presentationToken := "presentationToken" }

/-- Modelled from the spec: §4.1 createList and §4.3 creation-time
scheduling.  The scheduler is driven by the viewport (`nearEnd` says
whether a frontier is within the cache distance of the laid-out range, an
input from the out-of-scope layout engine); the BasicPager test trace
(src/unit/datasource/unittest_dynamictokenlist.cpp:968-1040) shows that a
frontier whose near-end condition does not hold at creation receives no
fetch even when its token is present, so the creation rule is guarded by
`nearEnd`.  A seed missing `listId` or `pageToken`, or whose `listId`
already exists, queues INTERNAL_ERROR and creates nothing. -/
def createList {α : Type} (s : ProviderState α) (seed : ListSeed α)
    (nearEnd : Direction → Bool) : ProviderState α :=
  match seed.listId, seed.pageToken with
  | some lid, some _ =>
    if (lookupList s.lists lid).isSome then pushError s .internalError
    else
      let s1 := { s with lists := s.lists ++ [seedListState lid seed] }
      let s2 := if nearEnd .fwd then scheduleFetchIfNeeded s1 lid .fwd else s1
      if nearEnd .bwd then scheduleFetchIfNeeded s2 lid .bwd else s2
  | _, _ => pushError s .internalError

/-- Modelled from the spec: §4.2 splice rules - Forward appends, Backward
prepends and lowers `baseIndex` by the number of new items; the spliced
frontier's token becomes the normalized `nextPageToken`. -/
def updateList {α : Type} (l : ListState α) (d : Direction) (newItems : List α)
    (tNext : Option String) : ListState α :=
  match d with
  | .fwd =>
    { l with items := l.items ++ newItems, forwardPageToken := normalizeToken tNext }
  | .bwd =>
    { l with
      items := newItems ++ l.items
      baseIndex := l.baseIndex - newItems.length
      backwardPageToken := normalizeToken tNext }

/-- Modelled from the spec: acceptance of a splice - the list is updated,
and the PendingRequest of the spliced frontier (if any) is removed, which
cancels its deadline timer. -/
def acceptSplice {α : Type} (s : ProviderState α) (l : ListState α) (d : Direction)
    (e : UpdateEnvelope α) : Bool × ProviderState α :=
  (true,
   { s with
     lists := replaceList s.lists (updateList l d e.items e.nextPageToken)
     pending := removePendingFor s.pending l.listId d })

/-- Modelled from the spec: §4.4/§4.6 handling of an envelope with empty
`items`.  The EmptyLazyResponseRetryFail test trace shows: while the
attempt budget remains, MISSING_LIST_ITEMS is queued and a retry with a
fresh correlation but the same page token goes out; once `fetchRetries`
failed attempts have accumulated, exactly INTERNAL_ERROR is queued and the
frontier is abandoned. -/
def handleEmptyItems {α : Type} (s : ProviderState α) (e : UpdateEnvelope α) :
    Bool × ProviderState α :=
  match findFailedRequest s.pending e.listId e.correlationToken e.pageToken with
  | none => (false, pushError s .missingListItems)
  | some p =>
    let s1 := { s with pending := removePendingFor s.pending p.listId p.direction }
    if p.attempts < s.configuration.fetchRetries then
      (false,
       issueFetch (pushError s1 .missingListItems) p.listId p.direction
         p.expectedPageToken (p.attempts + 1))
    else
      (false, pushError s1 .internalError)

/-- Modelled from the spec: §4.4 ResponseValidator and §4.2 splicing, in
the order fixed by the unit tests.  A live correlation naming a different
list rejects INCONSISTENT_LIST_ID before the list lookup
(CorrelationTokenSubstitute); an unknown list rejects INVALID_LIST_ID;
empty `items` is a failed attempt; otherwise acceptance is decided by
comparing the envelope's page token with the list's current frontier
tokens (backward first), so any envelope matching the live frontier is
accepted regardless of its correlation token, and anything else rejects
INTERNAL_ERROR.  A `none` payload is the null-payload rejection. -/
def processUpdate {α : Type} (s : ProviderState α) (payload : Option (UpdateEnvelope α)) :
    Bool × ProviderState α :=
  match payload with
  | none => (false, pushError s .internalError)
  | some e =>
    if inconsistentCorrelation s.pending e.correlationToken e.listId then
      (false, pushError s .inconsistentListId)
    else
      match lookupList s.lists e.listId with
      | none => (false, pushError s .invalidListId)
      | some l =>
        if e.items.isEmpty then handleEmptyItems s e
        else if some e.pageToken = l.backwardPageToken then acceptSplice s l .bwd e
        else if some e.pageToken = l.forwardPageToken then acceptSplice s l .fwd e
        else (false, pushError s .internalError)

/-- Modelled from the spec: §4.6 - the deadline of the PendingRequest with
the given correlation elapses.  The LazyResponseTimeout test trace shows:
while the attempt budget remains, LOAD_TIMEOUT is queued and a retry with a
fresh correlation goes out; once `fetchRetries` failed attempts have
accumulated the request is dropped without queueing anything (the test's
TearDown asserts the error queue is empty after the final expiry).  A
correlation with no live PendingRequest (a cancelled timer) is a no-op. -/
def fireTimeout {α : Type} (s : ProviderState α) (c : Nat) : ProviderState α :=
  match findPendingByCorrelation s.pending c with
  | none => s
  | some p =>
    let s1 := { s with pending := removePendingFor s.pending p.listId p.direction }
    if p.attempts < s.configuration.fetchRetries then
      issueFetch (pushError s1 .loadTimeout) p.listId p.direction p.expectedPageToken
        (p.attempts + 1)
    else
      s1

/-- Modelled from the spec: §4.2 - a Pager consuming the list; a Backward
splice prepends pages and the compensating adjustment moves the current
page index forward by the number of new pages so the displayed page stays
put (BasicPager test). -/
structure PagerView (α : Type) where
  pages : List α
  currentPage : Nat
deriving DecidableEq, Repr

/-- Modelled from the spec: §4.2 Backward splice as seen by a Pager. -/
def PagerView.spliceBackward {α : Type} (v : PagerView α) (newItems : List α) :
    PagerView α :=
  { pages := newItems ++ v.pages, currentPage := v.currentPage + newItems.length }

/-- Modelled from the spec: §4.2 - the on-screen offset of the child at
relative position `i` when every item occupies `h` pixels. -/
def childOffset (i : Int) (h : Int) : Int := i * h

/-- Modelled from the spec: §4.2 - the compensating scroll adjustment for a
Backward splice of `k` items of height `h` (WithFirstAndLast test: scroll
600 becomes 1700 after an 11-item backward splice of 100px items). -/
def scrollAdjust (scroll : Int) (k : Nat) (h : Int) : Int := scroll + k * h

/-! Concrete scenario data, taken verbatim from the unit tests. -/

/-- Configuration used by the DynamicTokenListTest fixture
(`setFetchTimeout(100)`, everything else default). -/
def cfg100 : DynamicListConfiguration := { fetchTimeout := 100 }

/-- Viewport input of the Sequence tests: both frontiers are within the
cache distance at creation (the Basic test sees both fetches at once). -/
def nearBoth : Direction → Bool := fun _ => true

/-- Viewport input of the BasicPager test at creation: the pager sits on
page 0, so only the backward frontier is near
(src/unit/datasource/unittest_dynamictokenlist.cpp:968-1040: the only
fetch at creation is correlation 101 for "backwardPageToken"). -/
def nearBwdOnly : Direction → Bool := fun d => match d with | .fwd => false | .bwd => true

/-- The SMALLER_DATA seed: forward token only, items 10..14. -/
def seedSmaller : ListSeed Int :=
  { listId := some "vQdpOESlok"
    pageToken := some "pageToken"
    forwardPageToken := some "forwardPageToken"
    backwardPageToken := none
    items := [10, 11, 12, 13, 14] }

/-- The DATA seed: both frontier tokens, items 10..14. -/
def seedData : ListSeed Int :=
  { listId := some "vQdpOESlok"
    pageToken := some "pageToken"
    forwardPageToken := some "forwardPageToken"
    backwardPageToken := some "backwardPageToken"
    items := [10, 11, 12, 13, 14] }

/-- The MULTI_DATA seeds for two distinct lists. -/
def seedMulti1 : ListSeed Int :=
  { listId := some "vQdpOESlok1"
    pageToken := some "pageToken"
    forwardPageToken := some "forwardPageToken"
    backwardPageToken := none
    items := [10, 11, 12, 13, 14] }

/-- Second MULTI_DATA seed. -/
def seedMulti2 : ListSeed Int := { seedMulti1 with listId := some "vQdpOESlok2" }

/-- Provider state after loading SMALLER_DATA into a Sequence: one list,
one pending forward request with correlation 101. -/
def stateSmaller : ProviderState Int := createList (freshProvider Int cfg100) seedSmaller nearBoth

/-- Provider state after loading DATA into a plain Container, which never
triggers the scheduler: one list, no pending request
(DynamicTokenListTest.Container). -/
def stateContainer : ProviderState Int := createList (freshProvider Int cfg100) seedData (fun _ => false)

/-- The FIFTEEN_TO_NINETEEN_WRONG_LIST_AND_TOKEN_RESPONSE envelope:
correlation 76 (never issued) and an unknown listId. -/
def envWrongListDeadCorrelation : UpdateEnvelope Int :=
  { presentationToken := "presentationToken"
    listId := "vQdpOESlok1"
    correlationToken := some 76
    pageToken := "forwardPageToken"
    nextPageToken := none
    items := [15, 16, 17, 18, 19] }

/-- The FIFTEEN_TO_NINETEEN_WRONG_LIST_RESPONSE envelope: the live
correlation 101 but an unknown listId. -/
def envWrongListLiveCorrelation : UpdateEnvelope Int :=
  { envWrongListDeadCorrelation with correlationToken := some 101 }

/-- The well-formed lazy-load response for correlation 101 with items
15..19 and no next token. -/
def envGood : UpdateEnvelope Int :=
  { presentationToken := "presentationToken"
    listId := "vQdpOESlok"
    correlationToken := some 101
    pageToken := "forwardPageToken"
    nextPageToken := none
    items := [15, 16, 17, 18, 19] }

/-- Empty-items response for a given correlation (createLazyLoad with no
items in the tests). -/
def envEmptyItems (c : Nat) : UpdateEnvelope Int :=
  { presentationToken := "presentationToken"
    listId := "vQdpOESlok"
    correlationToken := some c
    pageToken := "forwardPageToken"
    nextPageToken := none
    items := [] }

/-- The Container test's absent-correlation backward response: no
correlation token, page token "backwardPageToken", items 0..9. -/
def envAbsentCorrelation : UpdateEnvelope Int :=
  { presentationToken := "presentationToken"
    listId := "vQdpOESlok"
    correlationToken := none
    pageToken := "backwardPageToken"
    nextPageToken := none
    items := [0, 1, 2, 3, 4, 5, 6, 7, 8, 9] }

/-- The ListState created by the SMALLER_DATA seed. -/
def listSmallerSeeded : ListState Int :=
  { listId := "vQdpOESlok"
    items := [10, 11, 12, 13, 14]
    baseIndex := 0
    forwardPageToken := some "forwardPageToken"
    backwardPageToken := none
    presentationToken := "presentationToken" }

/-- The ListState created by the DATA seed. -/
def listDataSeeded : ListState Int :=
  { listSmallerSeeded with backwardPageToken := some "backwardPageToken" }

/-- Provider state after two empty-items responses of the
EmptyLazyResponseRetryFail trace: the live request is correlation 103 with
two failed attempts on record. -/
def stateEmptyTwice : ProviderState Int :=
  (processUpdate (processUpdate stateSmaller (some (envEmptyItems 101))).2
    (some (envEmptyItems 102))).2

/-- Provider state after two timer expiries of the LazyResponseTimeout
trace: the live request is correlation 103 with two failed attempts. -/
def stateTimeoutTwice : ProviderState Int :=
  fireTimeout (fireTimeout stateSmaller 101) 102

/-- Provider state after the first expiry of the
LazyResponseTimeoutResolvedAfterDelayed trace: the retry with correlation
102 is live for "forwardPageToken". -/
def stateAfterTimeout : ProviderState Int := fireTimeout stateSmaller 101

/-- The retry response that arrives after the frontier was already filled
by the delayed original (rejected with INTERNAL_ERROR in the test). -/
def envRetryAfterFill : UpdateEnvelope Int := { envGood with correlationToken := some 102 }

/-- Provider state after seeding the first MULTI list. -/
def stateMulti1 : ProviderState Int :=
  createList (freshProvider Int cfg100) seedMulti1 nearBoth

/-- The ListState created by the first MULTI seed. -/
def listMulti1Seeded : ListState Int :=
  { listSmallerSeeded with listId := "vQdpOESlok1" }

/-! Helper lemmas about the list-shaped tables. -/

theorem lookupList_listId {α : Type} {ls : List (ListState α)} {lid : String}
    {l : ListState α} (h : lookupList ls lid = some l) : l.listId = lid := by
  induction ls with
  | nil => simp [lookupList] at h
  | cons x xs ih =>
    by_cases hx : x.listId = lid
    · simp [lookupList, hx] at h
      simpa [← h] using hx
    · simp [lookupList, hx] at h
      exact ih h

theorem lookupList_append {α : Type} (ls₁ ls₂ : List (ListState α)) (lid : String) :
    lookupList (ls₁ ++ ls₂) lid =
      match lookupList ls₁ lid with
      | some l => some l
      | none => lookupList ls₂ lid := by
  induction ls₁ with
  | nil => simp [lookupList]
  | cons x xs ih =>
    by_cases hx : x.listId = lid <;> simp [lookupList, hx, ih]

theorem findPendingFor_append (ps qs : List PendingRequest) (lid : String) (d : Direction) :
    findPendingFor (ps ++ qs) lid d =
      match findPendingFor ps lid d with
      | some p => some p
      | none => findPendingFor qs lid d := by
  induction ps with
  | nil => simp [findPendingFor]
  | cons x xs ih =>
    by_cases hx : x.listId = lid ∧ x.direction = d <;> simp [findPendingFor, hx, ih]

theorem findPendingFor_eq_none {ps : List PendingRequest} {lid : String}
    (h : ∀ p ∈ ps, p.listId ≠ lid) (d : Direction) : findPendingFor ps lid d = none := by
  induction ps with
  | nil => simp [findPendingFor]
  | cons x xs ih =>
    have hx : x.listId ≠ lid := h x (by simp)
    simp only [findPendingFor]
    rw [if_neg (by simp [hx])]
    exact ih (fun p hp => h p (by simp [hp]))

theorem inconsistentCorrelation_eq_true_iff (ps : List PendingRequest) (c : Option Nat)
    (lid : String) :
    inconsistentCorrelation ps c lid = true ↔
      ∃ p ∈ ps, some p.correlation = c ∧ p.listId ≠ lid := by
  induction ps with
  | nil => simp [inconsistentCorrelation]
  | cons x xs ih =>
    by_cases hx : some x.correlation = c ∧ x.listId ≠ lid
    · simp [inconsistentCorrelation, hx]
    · simp only [inconsistentCorrelation, if_neg hx, ih]
      constructor
      · rintro ⟨p, hp, hc⟩
        exact ⟨p, by simp [hp], hc⟩
      · rintro ⟨p, hp, hc⟩
        rcases List.mem_cons.mp hp with h | h
        · exact absurd (h ▸ hc) hx
        · exact ⟨p, h, hc⟩

theorem inconsistentCorrelation_none (ps : List PendingRequest) (lid : String) :
    inconsistentCorrelation ps none lid = false := by
  induction ps with
  | nil => simp [inconsistentCorrelation]
  | cons x xs ih => simp [inconsistentCorrelation, ih]

theorem replaceList_lookup {α : Type} {ls : List (ListState α)} {lid : String}
    {l : ListState α} (h : lookupList ls lid = some l) (l' : ListState α)
    (hl' : l'.listId = lid) : lookupList (replaceList ls l') lid = some l' := by
  induction ls with
  | nil => simp [lookupList] at h
  | cons x xs ih =>
    by_cases hx : x.listId = lid
    · simp [replaceList, hl', hx, lookupList]
    · have : ¬ x.listId = l'.listId := by rw [hl']; exact hx
      simp only [replaceList, if_neg this, lookupList, if_neg hx]
      exact ih (by simpa [lookupList, hx] using h)

theorem isEmpty_eq_false_of_ne_nil {α : Type} {xs : List α} (h : xs ≠ []) :
    xs.isEmpty = false := by
  cases xs with
  | nil => exact absurd rfl h
  | cons x xs => rfl

/-- Acceptance through the backward frontier: when the envelope's
correlation is consistent, its list exists, its items are non-empty and its
page token equals the list's current backward token, `processUpdate`
performs the Backward splice. -/
theorem processUpdate_eq_of_bwd {α : Type} {s : ProviderState α} {e : UpdateEnvelope α}
    {l : ListState α}
    (hinc : inconsistentCorrelation s.pending e.correlationToken e.listId = false)
    (hlook : lookupList s.lists e.listId = some l)
    (hne : e.items ≠ [])
    (hbwd : some e.pageToken = l.backwardPageToken) :
    processUpdate s (some e) = acceptSplice s l .bwd e := by
  simp [processUpdate, hinc, hlook, isEmpty_eq_false_of_ne_nil hne, hbwd]

/-- Acceptance through the forward frontier: as above, but the page token
misses the backward token and equals the forward one. -/
theorem processUpdate_eq_of_fwd {α : Type} {s : ProviderState α} {e : UpdateEnvelope α}
    {l : ListState α}
    (hinc : inconsistentCorrelation s.pending e.correlationToken e.listId = false)
    (hlook : lookupList s.lists e.listId = some l)
    (hne : e.items ≠ [])
    (hnbwd : some e.pageToken ≠ l.backwardPageToken)
    (hfwd : some e.pageToken = l.forwardPageToken) :
    processUpdate s (some e) = acceptSplice s l .fwd e := by
  simp only [processUpdate, hinc, Bool.false_eq_true, if_false, hlook,
    isEmpty_eq_false_of_ne_nil hne]
  rw [if_neg hnbwd, if_pos hfwd]

theorem updateList_listId {α : Type} (l : ListState α) (d : Direction) (xs : List α)
    (t : Option String) : (updateList l d xs t).listId = l.listId := by
  cases d <;> rfl

/-- C1 (counterexample): in the CorrelationTokenSubstitute scenario an
envelope carrying the live correlation token 101 and an unknown listId is
rejected with INCONSISTENT_LIST_ID, not INVALID_LIST_ID: the correlation
lookup happens before the list-existence check. -/
theorem unknownList_liveCorrelation_rejects_inconsistent :
    (processUpdate stateSmaller (some envWrongListLiveCorrelation)).2.errors
        = [ErrorReason.inconsistentListId]
    ∧ ErrorReason.inconsistentListId ≠ ErrorReason.invalidListId := by
  decide

/-- C1 (amended): the validator resolves the correlation token first - an
envelope whose correlation token names a live PendingRequest of a
different list is rejected with INCONSISTENT_LIST_ID (even when the
envelope's listId is unknown), and an envelope whose listId is unknown is
rejected with INVALID_LIST_ID only when its correlation token names no
live PendingRequest of another list. -/
theorem validator_correlation_before_list {α : Type} (s : ProviderState α)
    (e : UpdateEnvelope α) :
    ((∃ p ∈ s.pending, some p.correlation = e.correlationToken ∧ p.listId ≠ e.listId) →
        processUpdate s (some e) = (false, pushError s .inconsistentListId))
    ∧ ((∀ p ∈ s.pending, some p.correlation = e.correlationToken → p.listId = e.listId) →
        lookupList s.lists e.listId = none →
        processUpdate s (some e) = (false, pushError s .invalidListId)) := by
  constructor
  · intro h
    have ht : inconsistentCorrelation s.pending e.correlationToken e.listId = true :=
      (inconsistentCorrelation_eq_true_iff _ _ _).mpr h
    simp [processUpdate, ht]
  · intro hall hnone
    have hf : inconsistentCorrelation s.pending e.correlationToken e.listId = false := by
      rw [Bool.eq_false_iff]
      intro ht
      obtain ⟨p, hp, hc, hn⟩ := (inconsistentCorrelation_eq_true_iff _ _ _).mp ht
      exact hn (hall p hp hc)
    simp [processUpdate, hf, hnone]

/-- C1 (witness): the amended rule applied to the CorrelationTokenSubstitute
inputs - dead correlation 76 with unknown list gives INVALID_LIST_ID, and
live correlation 101 with unknown list gives INCONSISTENT_LIST_ID. -/
theorem validator_correlation_before_list_witness :
    processUpdate stateSmaller (some envWrongListDeadCorrelation)
        = (false, pushError stateSmaller .invalidListId)
    ∧ processUpdate stateSmaller (some envWrongListLiveCorrelation)
        = (false, pushError stateSmaller .inconsistentListId) :=
  ⟨(validator_correlation_before_list stateSmaller envWrongListDeadCorrelation).2
      (by decide) (by decide),
   (validator_correlation_before_list stateSmaller envWrongListLiveCorrelation).1
      (by decide)⟩

/-- C2 (counterexample): on the timeout path the third consecutive expiry
does not queue INTERNAL_ERROR (nor anything else) - after three timer
expiries of the LazyResponseTimeout scenario the error queue holds exactly
the two LOAD_TIMEOUTs and only three fetch events were ever emitted. -/
theorem timeout_exhaustion_queues_nothing :
    (fireTimeout (fireTimeout (fireTimeout stateSmaller 101) 102) 103).errors
        = [ErrorReason.loadTimeout, ErrorReason.loadTimeout]
    ∧ ErrorReason.internalError
        ∉ (fireTimeout (fireTimeout (fireTimeout stateSmaller 101) 102) 103).errors
    ∧ (fireTimeout (fireTimeout (fireTimeout stateSmaller 101) 102) 103).events.length = 3 := by
  decide

/-- C2 (amended): once the attempt counter reaches `fetchRetries` the
frontier is abandoned with no further fetch on both failure paths, but the
queued error differs - the final empty-items response queues exactly
INTERNAL_ERROR, while the final timer expiry queues nothing at all. -/
theorem retry_exhaustion_behavior {α : Type} (s : ProviderState α) :
    (∀ (e : UpdateEnvelope α) (l : ListState α) (p : PendingRequest),
        inconsistentCorrelation s.pending e.correlationToken e.listId = false →
        lookupList s.lists e.listId = some l →
        e.items = [] →
        findFailedRequest s.pending e.listId e.correlationToken e.pageToken = some p →
        s.configuration.fetchRetries ≤ p.attempts →
        processUpdate s (some e) =
          (false, { s with
                    pending := removePendingFor s.pending p.listId p.direction
                    errors := s.errors ++ [.internalError] }))
    ∧ (∀ (c : Nat) (p : PendingRequest),
        findPendingByCorrelation s.pending c = some p →
        s.configuration.fetchRetries ≤ p.attempts →
        fireTimeout s c = { s with pending := removePendingFor s.pending p.listId p.direction }) := by
  constructor
  · intro e l p hinc hlook hempty hfind hle
    have hnl : ¬ p.attempts < s.configuration.fetchRetries := Nat.not_lt.mpr hle
    simp [processUpdate, hinc, hlook, hempty, handleEmptyItems, hfind, hnl, pushError]
  · intro c p hfind hle
    have hnl : ¬ p.attempts < s.configuration.fetchRetries := Nat.not_lt.mpr hle
    simp [fireTimeout, hfind, hnl]

/-- C2 (witness): the two exhaustion rules applied to the third failed
attempt of the EmptyLazyResponseRetryFail and LazyResponseTimeout traces. -/
theorem retry_exhaustion_behavior_witness :
    processUpdate stateEmptyTwice (some (envEmptyItems 103)) =
      (false, { stateEmptyTwice with
                pending := removePendingFor stateEmptyTwice.pending "vQdpOESlok" .fwd
                errors := stateEmptyTwice.errors ++ [.internalError] })
    ∧ fireTimeout stateTimeoutTwice 103 =
        { stateTimeoutTwice with
          pending := removePendingFor stateTimeoutTwice.pending "vQdpOESlok" .fwd } :=
  ⟨(retry_exhaustion_behavior stateEmptyTwice).1 (envEmptyItems 103)
      listSmallerSeeded ⟨103, "vQdpOESlok", .fwd, "forwardPageToken", 2⟩
      (by decide) (by decide) (by decide) (by decide) (by decide),
   (retry_exhaustion_behavior stateTimeoutTwice).2 103
      ⟨103, "vQdpOESlok", .fwd, "forwardPageToken", 2⟩ (by decide) (by decide)⟩

/-- C3: while a retry PendingRequest is live for a frontier, any response
whose page token equals that request's expected page token is accepted no
matter which correlation token it carries (the statement places no
constraint at all on `e.correlationToken`, so in particular the original,
superseded correlation is fine); the first such arrival splices, removes
the PendingRequest and thereby cancels its timer (`fireTimeout` becomes a
no-op), and every subsequent response for the now-filled frontier is
rejected with INTERNAL_ERROR. -/
theorem correlation_substitution (s : ProviderState Int) (l : ListState Int)
    (p : PendingRequest) (e : UpdateEnvelope Int)
    (hlists : s.lists = [l]) (hpend : s.pending = [p])
    (hpl : p.listId = l.listId) (hpd : p.direction = .fwd)
    (hfwd : l.forwardPageToken = some p.expectedPageToken)
    (hbwd : l.backwardPageToken ≠ some p.expectedPageToken)
    (hel : e.listId = l.listId) (het : e.pageToken = p.expectedPageToken)
    (hne : e.items ≠ []) :
    (processUpdate s (some e)).1 = true
    ∧ (processUpdate s (some e)).2.lists = [updateList l .fwd e.items e.nextPageToken]
    ∧ (processUpdate s (some e)).2.pending = []
    ∧ (∀ c : Nat, fireTimeout (processUpdate s (some e)).2 c = (processUpdate s (some e)).2)
    ∧ (∀ e₂ : UpdateEnvelope Int,
        e₂.listId = l.listId → e₂.pageToken = p.expectedPageToken → e₂.items ≠ [] →
        normalizeToken e.nextPageToken ≠ some p.expectedPageToken →
        processUpdate (processUpdate s (some e)).2 (some e₂)
          = (false, pushError (processUpdate s (some e)).2 .internalError)) := by
  have hinc : inconsistentCorrelation s.pending e.correlationToken e.listId = false := by
    rw [hpend]
    simp [inconsistentCorrelation, hpl, hel]
  have hlook : lookupList s.lists e.listId = some l := by
    rw [hlists]
    simp [lookupList, hel]
  have hb : some e.pageToken ≠ l.backwardPageToken := by
    rw [het]
    exact fun h => hbwd h.symm
  have hf : some e.pageToken = l.forwardPageToken := by rw [het, hfwd]
  have hmain := processUpdate_eq_of_fwd hinc hlook hne hb hf
  rw [hmain]
  have hlists2 : (acceptSplice s l .fwd e).2.lists
      = [updateList l .fwd e.items e.nextPageToken] := by
    simp only [acceptSplice]
    rw [hlists]
    simp [replaceList, updateList]
  have hpend2 : (acceptSplice s l .fwd e).2.pending = [] := by
    simp only [acceptSplice]
    rw [hpend]
    simp [removePendingFor, hpl, hpd]
  refine ⟨rfl, hlists2, hpend2, ?_, ?_⟩
  · intro c
    simp [fireTimeout, hpend2, findPendingByCorrelation]
  · intro e₂ h1 h2 h3 h4
    have hinc2 : inconsistentCorrelation (acceptSplice s l .fwd e).2.pending
        e₂.correlationToken e₂.listId = false := by
      rw [hpend2]
      rfl
    have hlook2 : lookupList (acceptSplice s l .fwd e).2.lists e₂.listId
        = some (updateList l .fwd e.items e.nextPageToken) := by
      rw [hlists2]
      have hid : (updateList l .fwd e.items e.nextPageToken).listId = l.listId := rfl
      simp [lookupList, hid, h1]
    have hb2 : some e₂.pageToken
        ≠ (updateList l .fwd e.items e.nextPageToken).backwardPageToken := by
      show some e₂.pageToken ≠ l.backwardPageToken
      rw [h2]
      exact fun h => hbwd h.symm
    have hf2 : some e₂.pageToken
        ≠ (updateList l .fwd e.items e.nextPageToken).forwardPageToken := by
      show some e₂.pageToken ≠ normalizeToken e.nextPageToken
      rw [h2]
      exact fun h => h4 h.symm
    simp only [processUpdate, hinc2, Bool.false_eq_true, if_false, hlook2,
      isEmpty_eq_false_of_ne_nil h3]
    rw [if_neg hb2, if_neg hf2]

/-- C3 (witness): the LazyResponseTimeoutResolvedAfterDelayed trace - after
the first expiry the retry with correlation 102 is live, the delayed
original response (correlation 101) is accepted, and the retry's own
response is then rejected with INTERNAL_ERROR. -/
theorem correlation_substitution_witness :
    (processUpdate stateAfterTimeout (some envGood)).1 = true
    ∧ processUpdate (processUpdate stateAfterTimeout (some envGood)).2
        (some envRetryAfterFill)
      = (false, pushError (processUpdate stateAfterTimeout (some envGood)).2
          .internalError) := by
  have h := correlation_substitution stateAfterTimeout listSmallerSeeded
      ⟨102, "vQdpOESlok", .fwd, "forwardPageToken", 1⟩ envGood
      (by decide) (by decide) (by decide) (by decide) (by decide) (by decide)
      (by decide) (by decide) (by decide)
  exact ⟨h.1, h.2.2.2.2 envRetryAfterFill (by decide) (by decide) (by decide) (by decide)⟩

theorem scheduleFetchIfNeeded_open {α : Type} {s : ProviderState α} {lid : String}
    {d : Direction} {l : ListState α} {t : String}
    (hlk : lookupList s.lists lid = some l) (ht : l.frontierToken d = some t)
    (hnp : findPendingFor s.pending lid d = none) :
    scheduleFetchIfNeeded s lid d = issueFetch s lid d t 0 := by
  simp only [scheduleFetchIfNeeded, hlk, ht, hnp]

theorem scheduleFetchIfNeeded_closed {α : Type} {s : ProviderState α} {lid : String}
    {d : Direction} {l : ListState α}
    (hlk : lookupList s.lists lid = some l) (ht : l.frontierToken d = none) :
    scheduleFetchIfNeeded s lid d = s := by
  simp only [scheduleFetchIfNeeded, hlk, ht]

/-- C4 (counterexample): the BasicPager creation input - the DATA seed
carries a forward page token, yet the only fetch scheduled at creation is
the backward one with correlation "101"; no Forward fetch exists at
creation. -/
theorem pager_creation_no_forward_fetch :
    seedData.forwardPageToken = some "forwardPageToken"
    ∧ (createList (freshProvider Int cfg100) seedData nearBwdOnly).events
        = [{ listId := "vQdpOESlok", correlationToken := "101",
             pageToken := "backwardPageToken" }]
    ∧ findPendingFor (createList (freshProvider Int cfg100) seedData nearBwdOnly).pending
        "vQdpOESlok" .fwd = none := by
  decide

/-- C4 (amended): a fetch is scheduled at list creation for a frontier
exactly when that frontier's seed token is present (after normalization)
and the viewport's near-end condition holds for that direction; the number
of fetch events emitted at creation is the number of frontiers satisfying
both conditions. -/
theorem creation_scheduling {α : Type} (s : ProviderState α) (seed : ListSeed α)
    (nearEnd : Direction → Bool) (lid pt : String)
    (hlid : seed.listId = some lid) (hpt : seed.pageToken = some pt)
    (hnew : lookupList s.lists lid = none)
    (hpend : ∀ p ∈ s.pending, p.listId ≠ lid) :
    ((findPendingFor (createList s seed nearEnd).pending lid .fwd).isSome
        = (nearEnd .fwd && (normalizeToken seed.forwardPageToken).isSome))
    ∧ ((findPendingFor (createList s seed nearEnd).pending lid .bwd).isSome
        = (nearEnd .bwd && (normalizeToken seed.backwardPageToken).isSome))
    ∧ ((createList s seed nearEnd).events.length
        = s.events.length
          + (nearEnd .fwd && (normalizeToken seed.forwardPageToken).isSome).toNat
          + (nearEnd .bwd && (normalizeToken seed.backwardPageToken).isSome).toNat) := by
  have hpf : findPendingFor s.pending lid Direction.fwd = none :=
    findPendingFor_eq_none hpend _
  have hpb : findPendingFor s.pending lid Direction.bwd = none :=
    findPendingFor_eq_none hpend _
  have hlk1 : lookupList (s.lists ++ [seedListState lid seed]) lid
      = some (seedListState lid seed) := by
    rw [lookupList_append, hnew]
    simp [lookupList, seedListState]
  have hftf : (seedListState lid seed).frontierToken .fwd
      = normalizeToken seed.forwardPageToken := rfl
  have hftb : (seedListState lid seed).frontierToken .bwd
      = normalizeToken seed.backwardPageToken := rfl
  simp only [createList, hlid, hpt, hnew, Option.isSome_none, Bool.false_eq_true, if_false]
  cases hf : nearEnd Direction.fwd <;> cases hb : nearEnd Direction.bwd <;>
    cases hft : normalizeToken seed.forwardPageToken <;>
    cases hbt : normalizeToken seed.backwardPageToken <;>
    simp_all [scheduleFetchIfNeeded, hlk1, issueFetch, findPendingFor_append,
      findPendingFor, ListState.frontierToken, seedListState, lookupList_append,
      lookupList]

/-- C4 (witness): the amended rule applied to the BasicPager creation
input: backward scheduled, forward not, exactly one event emitted. -/
theorem creation_scheduling_witness :
    ((findPendingFor (createList (freshProvider Int cfg100) seedData nearBwdOnly).pending
        "vQdpOESlok" .fwd).isSome
      = (nearBwdOnly .fwd && (normalizeToken seedData.forwardPageToken).isSome))
    ∧ ((findPendingFor (createList (freshProvider Int cfg100) seedData nearBwdOnly).pending
        "vQdpOESlok" .bwd).isSome
      = (nearBwdOnly .bwd && (normalizeToken seedData.backwardPageToken).isSome))
    ∧ ((createList (freshProvider Int cfg100) seedData nearBwdOnly).events.length
        = (freshProvider Int cfg100).events.length
          + (nearBwdOnly .fwd && (normalizeToken seedData.forwardPageToken).isSome).toNat
          + (nearBwdOnly .bwd && (normalizeToken seedData.backwardPageToken).isSome).toNat) :=
  creation_scheduling (freshProvider Int cfg100) seedData nearBwdOnly
    "vQdpOESlok" "pageToken" (by decide) (by decide) (by decide) (by decide)

theorem ne_nil_of_isEmpty_eq_false {α : Type} {xs : List α} (h : xs.isEmpty = false) :
    xs ≠ [] := by
  cases xs with
  | nil => simp [List.isEmpty] at h
  | cons x xs => simp

theorem handleEmptyItems_fst {α : Type} (s : ProviderState α) (e : UpdateEnvelope α) :
    (handleEmptyItems s e).1 = false := by
  unfold handleEmptyItems
  cases findFailedRequest s.pending e.listId e.correlationToken e.pageToken with
  | none => rfl
  | some p =>
    by_cases ha : p.attempts < s.configuration.fetchRetries <;> simp [ha]

theorem handleEmptyItems_lists {α : Type} (s : ProviderState α) (e : UpdateEnvelope α) :
    (handleEmptyItems s e).2.lists = s.lists := by
  unfold handleEmptyItems
  cases findFailedRequest s.pending e.listId e.correlationToken e.pageToken with
  | none => rfl
  | some p =>
    by_cases ha : p.attempts < s.configuration.fetchRetries <;>
      simp [ha, issueFetch, pushError]

/-- C5: splice arithmetic.  A Forward acceptance of k items appends them
(count grows by k, existing children keep their relative positions and the
base index is unchanged); a Backward acceptance of k items prepends them
(count grows by k, every existing child shifts by +k, its absolute index
is preserved, and the compensating scroll adjustment keeps the former
children at the same on-screen offset). -/
theorem splice_arithmetic {α : Type} :
    (∀ (s : ProviderState α) (e : UpdateEnvelope α) (l : ListState α),
      inconsistentCorrelation s.pending e.correlationToken e.listId = false →
      lookupList s.lists e.listId = some l →
      e.items ≠ [] →
      some e.pageToken ≠ l.backwardPageToken →
      some e.pageToken = l.forwardPageToken →
      (processUpdate s (some e)).1 = true
      ∧ ∃ l', lookupList (processUpdate s (some e)).2.lists e.listId = some l'
          ∧ l'.items = l.items ++ e.items
          ∧ l'.items.length = l.items.length + e.items.length
          ∧ l'.baseIndex = l.baseIndex
          ∧ (∀ i : Nat, i < l.items.length → l'.items[i]? = l.items[i]?))
    ∧ (∀ (s : ProviderState α) (e : UpdateEnvelope α) (l : ListState α),
      inconsistentCorrelation s.pending e.correlationToken e.listId = false →
      lookupList s.lists e.listId = some l →
      e.items ≠ [] →
      some e.pageToken = l.backwardPageToken →
      (processUpdate s (some e)).1 = true
      ∧ ∃ l', lookupList (processUpdate s (some e)).2.lists e.listId = some l'
          ∧ l'.items = e.items ++ l.items
          ∧ l'.items.length = l.items.length + e.items.length
          ∧ l'.baseIndex = l.baseIndex - e.items.length
          ∧ (∀ i : Nat, l'.items[i + e.items.length]? = l.items[i]?)
          ∧ (∀ i : Nat, l'.baseIndex + ((i : Int) + (e.items.length : Int))
              = l.baseIndex + (i : Int))
          ∧ (∀ scroll hgt off : Int,
              childOffset (off + e.items.length) hgt
                  - scrollAdjust scroll e.items.length hgt
                = childOffset off hgt - scroll)) := by
  constructor
  · intro s e l hinc hlook hne hnb hfw
    rw [processUpdate_eq_of_fwd hinc hlook hne hnb hfw]
    refine ⟨rfl, updateList l .fwd e.items e.nextPageToken, ?_, rfl, by simp [updateList],
      rfl, ?_⟩
    · simp only [acceptSplice]
      exact replaceList_lookup hlook _ (by rw [updateList_listId]; exact lookupList_listId hlook)
    · intro i hi
      show (l.items ++ e.items)[i]? = l.items[i]?
      rw [List.getElem?_append, if_pos hi]
  · intro s e l hinc hlook hne hbw
    rw [processUpdate_eq_of_bwd hinc hlook hne hbw]
    refine ⟨rfl, updateList l .bwd e.items e.nextPageToken, ?_, rfl,
      by simp [updateList, Nat.add_comm], rfl, ?_, ?_, ?_⟩
    · simp only [acceptSplice]
      exact replaceList_lookup hlook _ (by rw [updateList_listId]; exact lookupList_listId hlook)
    · intro i
      show (e.items ++ l.items)[i + e.items.length]? = l.items[i]?
      rw [List.getElem?_append_right (by omega)]
      congr 1
      omega
    · intro i
      show l.baseIndex - (e.items.length : Int) + ((i : Int) + (e.items.length : Int))
          = l.baseIndex + (i : Int)
      ring
    · intro scroll hgt off
      simp only [childOffset, scrollAdjust]
      ring

/-- C5 (witness): the Forward splice of the SMALLER_DATA trace and the
Backward splice of the Container trace are both accepted. -/
theorem splice_arithmetic_witness :
    (processUpdate stateSmaller (some envGood)).1 = true
    ∧ (processUpdate stateContainer (some envAbsentCorrelation)).1 = true :=
  ⟨((splice_arithmetic (α := Int)).1 stateSmaller envGood listSmallerSeeded
      (by decide) (by decide) (by decide) (by decide) (by decide)).1,
   ((splice_arithmetic (α := Int)).2 stateContainer envAbsentCorrelation listDataSeeded
      (by decide) (by decide) (by decide) (by decide)).1⟩

/-- C6: `processUpdate` returns true exactly on accepted splices - a null
payload queues exactly INTERNAL_ERROR; every rejection leaves the list
table (items, base indices and frontier tokens) untouched; every accepted
envelope has non-empty items and strictly grows its list; an unknown list
with consistent correlation queues exactly INVALID_LIST_ID; an
otherwise-valid envelope with zero items is a MISSING_LIST_ITEMS failed
attempt, not a splice; an envelope whose correlation names another list's
request queues exactly INCONSISTENT_LIST_ID. -/
theorem processUpdate_true_iff_state_change {α : Type} :
    (∀ s : ProviderState α, processUpdate s none = (false, pushError s .internalError))
    ∧ (∀ (s : ProviderState α) (e : UpdateEnvelope α),
        (processUpdate s (some e)).1 = false →
        (processUpdate s (some e)).2.lists = s.lists)
    ∧ (∀ (s : ProviderState α) (e : UpdateEnvelope α),
        (processUpdate s (some e)).1 = true →
        e.items ≠ []
        ∧ ∃ l l', lookupList s.lists e.listId = some l
            ∧ lookupList (processUpdate s (some e)).2.lists e.listId = some l'
            ∧ l'.items.length = l.items.length + e.items.length)
    ∧ (∀ (s : ProviderState α) (e : UpdateEnvelope α),
        inconsistentCorrelation s.pending e.correlationToken e.listId = false →
        lookupList s.lists e.listId = none →
        processUpdate s (some e) = (false, pushError s .invalidListId))
    ∧ (∀ (s : ProviderState α) (e : UpdateEnvelope α) (l : ListState α) (p : PendingRequest),
        inconsistentCorrelation s.pending e.correlationToken e.listId = false →
        lookupList s.lists e.listId = some l →
        e.items = [] →
        findFailedRequest s.pending e.listId e.correlationToken e.pageToken = some p →
        p.attempts < s.configuration.fetchRetries →
        (processUpdate s (some e)).1 = false
        ∧ (processUpdate s (some e)).2.errors = s.errors ++ [.missingListItems]
        ∧ (processUpdate s (some e)).2.lists = s.lists)
    ∧ (∀ (s : ProviderState α) (e : UpdateEnvelope α),
        (∃ p ∈ s.pending, some p.correlation = e.correlationToken ∧ p.listId ≠ e.listId) →
        processUpdate s (some e) = (false, pushError s .inconsistentListId)) := by
  refine ⟨fun s => rfl, ?_, ?_, ?_, ?_, ?_⟩
  · intro s e h
    by_cases hinc : inconsistentCorrelation s.pending e.correlationToken e.listId = true
    · simp [processUpdate, hinc, pushError]
    · rw [Bool.not_eq_true] at hinc
      cases hlk : lookupList s.lists e.listId with
      | none => simp [processUpdate, hinc, hlk, pushError]
      | some l =>
        cases hie : e.items.isEmpty with
        | true =>
          simp only [processUpdate, hinc, Bool.false_eq_true, if_false, hlk, hie, if_true]
          exact handleEmptyItems_lists s e
        | false =>
          by_cases hbw : some e.pageToken = l.backwardPageToken
          · rw [processUpdate_eq_of_bwd hinc hlk (ne_nil_of_isEmpty_eq_false hie) hbw] at h
            simp [acceptSplice] at h
          · by_cases hfw : some e.pageToken = l.forwardPageToken
            · rw [processUpdate_eq_of_fwd hinc hlk (ne_nil_of_isEmpty_eq_false hie) hbw hfw]
                at h
              simp [acceptSplice] at h
            · simp [processUpdate, hinc, hlk, hie, hbw, hfw, pushError]
  · intro s e h
    by_cases hinc : inconsistentCorrelation s.pending e.correlationToken e.listId = true
    · simp [processUpdate, hinc] at h
    · rw [Bool.not_eq_true] at hinc
      cases hlk : lookupList s.lists e.listId with
      | none => simp [processUpdate, hinc, hlk] at h
      | some l =>
        cases hie : e.items.isEmpty with
        | true =>
          simp only [processUpdate, hinc, Bool.false_eq_true, if_false, hlk, hie,
            if_true] at h
          rw [handleEmptyItems_fst] at h
          exact absurd h (by simp)
        | false =>
          have hne : e.items ≠ [] := ne_nil_of_isEmpty_eq_false hie
          by_cases hbw : some e.pageToken = l.backwardPageToken
          · rw [processUpdate_eq_of_bwd hinc hlk hne hbw]
            refine ⟨hne, l, updateList l .bwd e.items e.nextPageToken, rfl, ?_, ?_⟩
            · simp only [acceptSplice]
              exact replaceList_lookup hlk _
                (by rw [updateList_listId]; exact lookupList_listId hlk)
            · simp [updateList, Nat.add_comm]
          · by_cases hfw : some e.pageToken = l.forwardPageToken
            · rw [processUpdate_eq_of_fwd hinc hlk hne hbw hfw]
              refine ⟨hne, l, updateList l .fwd e.items e.nextPageToken, rfl, ?_, ?_⟩
              · simp only [acceptSplice]
                exact replaceList_lookup hlk _
                  (by rw [updateList_listId]; exact lookupList_listId hlk)
              · simp [updateList]
            · simp [processUpdate, hinc, hlk, hie, hbw, hfw] at h
  · intro s e hinc hnone
    simp [processUpdate, hinc, hnone]
  · intro s e l p hinc hlk hempty hfind ha
    refine ⟨?_, ?_, ?_⟩ <;>
      simp [processUpdate, hinc, hlk, hempty, handleEmptyItems, hfind, ha, issueFetch,
        pushError]
  · intro s e h
    have ht : inconsistentCorrelation s.pending e.correlationToken e.listId = true :=
      (inconsistentCorrelation_eq_true_iff _ _ _).mpr h
    simp [processUpdate, ht]

/-- C6 (witness): the iff at concrete inputs - null payload on the
SMALLER_DATA state, the rejected wrong-list envelope leaving the table
unchanged, the accepted response growing the list, and the first
empty-items response of the EmptyLazyResponseRetryFail trace. -/
theorem processUpdate_true_iff_state_change_witness :
    processUpdate stateSmaller (none : Option (UpdateEnvelope Int))
        = (false, pushError stateSmaller .internalError)
    ∧ (processUpdate stateSmaller (some envWrongListLiveCorrelation)).2.lists
        = stateSmaller.lists
    ∧ (processUpdate stateSmaller (some (envEmptyItems 101))).1 = false
    ∧ (processUpdate stateSmaller (some (envEmptyItems 101))).2.errors
        = stateSmaller.errors ++ [.missingListItems] := by
  refine ⟨(processUpdate_true_iff_state_change (α := Int)).1 stateSmaller, ?_, ?_, ?_⟩
  · exact (processUpdate_true_iff_state_change (α := Int)).2.1 stateSmaller
      envWrongListLiveCorrelation (by decide)
  · exact ((processUpdate_true_iff_state_change (α := Int)).2.2.2.2.1 stateSmaller
      (envEmptyItems 101) listSmallerSeeded ⟨101, "vQdpOESlok", .fwd, "forwardPageToken", 0⟩
      (by decide) (by decide) (by decide) (by decide) (by decide)).1
  · exact ((processUpdate_true_iff_state_change (α := Int)).2.2.2.2.1 stateSmaller
      (envEmptyItems 101) listSmallerSeeded ⟨101, "vQdpOESlok", .fwd, "forwardPageToken", 0⟩
      (by decide) (by decide) (by decide) (by decide) (by decide)).2.1

/-- C7 (counterexample): the Container scenario - the DATA seed carries a
backward frontier token, yet the response with an absent correlation token
whose page token equals that frontier token is accepted. -/
theorem absent_correlation_accepted_despite_seeded_backward :
    seedData.backwardPageToken = some "backwardPageToken"
    ∧ envAbsentCorrelation.correlationToken = none
    ∧ (processUpdate stateContainer (some envAbsentCorrelation)).1 = true := by
  decide

/-- C7 (amended): a response with an absent correlation token is accepted
exactly when its listId names an existing list, its items are non-empty,
and its page token equals the list's current backward or forward frontier
token; with a valid list and non-empty items but a page token matching
neither frontier it is rejected with INTERNAL_ERROR. -/
theorem absent_correlation_acceptance {α : Type} (s : ProviderState α)
    (e : UpdateEnvelope α) (hc : e.correlationToken = none) :
    (((processUpdate s (some e)).1 = true) ↔
      ∃ l, lookupList s.lists e.listId = some l ∧ e.items ≠ []
        ∧ (some e.pageToken = l.backwardPageToken ∨ some e.pageToken = l.forwardPageToken))
    ∧ (∀ l, lookupList s.lists e.listId = some l → e.items ≠ [] →
        some e.pageToken ≠ l.backwardPageToken → some e.pageToken ≠ l.forwardPageToken →
        processUpdate s (some e) = (false, pushError s .internalError)) := by
  have hinc : inconsistentCorrelation s.pending e.correlationToken e.listId = false := by
    rw [hc]
    exact inconsistentCorrelation_none _ _
  constructor
  · constructor
    · intro h
      cases hlk : lookupList s.lists e.listId with
      | none => simp [processUpdate, hinc, hlk] at h
      | some l =>
        cases hie : e.items.isEmpty with
        | true =>
          simp only [processUpdate, hinc, Bool.false_eq_true, if_false, hlk, hie,
            if_true] at h
          rw [handleEmptyItems_fst] at h
          exact absurd h (by simp)
        | false =>
          by_cases hbw : some e.pageToken = l.backwardPageToken
          · exact ⟨l, rfl, ne_nil_of_isEmpty_eq_false hie, Or.inl hbw⟩
          · by_cases hfw : some e.pageToken = l.forwardPageToken
            · exact ⟨l, rfl, ne_nil_of_isEmpty_eq_false hie, Or.inr hfw⟩
            · simp [processUpdate, hinc, hlk, hie, hbw, hfw] at h
    · rintro ⟨l, hlk, hne, hor⟩
      by_cases hbw : some e.pageToken = l.backwardPageToken
      · rw [processUpdate_eq_of_bwd hinc hlk hne hbw]
        rfl
      · rcases hor with hbw' | hfw
        · exact absurd hbw' hbw
        · rw [processUpdate_eq_of_fwd hinc hlk hne hbw hfw]
          rfl
  · intro l hlk hne hnb hnf
    simp [processUpdate, hinc, hlk, isEmpty_eq_false_of_ne_nil hne, hnb, hnf]

/-- C7 (witness): the amended acceptance rule applied to the Container
inputs. -/
theorem absent_correlation_acceptance_witness :
    (processUpdate stateContainer (some envAbsentCorrelation)).1 = true :=
  ((absent_correlation_acceptance stateContainer envAbsentCorrelation (by decide)).1).mpr
    ⟨listDataSeeded, by decide, by decide, Or.inl (by decide)⟩

/-- C8: seeding a second list with an already-used listId queues exactly
one INTERNAL_ERROR and changes nothing else - the second list is not
created and the first list's state, pending requests and emitted fetch
events are untouched. -/
theorem duplicate_listId_seed {α : Type} (s : ProviderState α) (seed : ListSeed α)
    (nearEnd : Direction → Bool) (lid pt : String) (l : ListState α)
    (hlid : seed.listId = some lid) (hpt : seed.pageToken = some pt)
    (hdup : lookupList s.lists lid = some l) :
    createList s seed nearEnd = pushError s .internalError
    ∧ (createList s seed nearEnd).lists = s.lists
    ∧ (createList s seed nearEnd).pending = s.pending
    ∧ (createList s seed nearEnd).events = s.events
    ∧ (createList s seed nearEnd).errors = s.errors ++ [.internalError] := by
  have h1 : createList s seed nearEnd = pushError s .internalError := by
    simp [createList, hlid, hpt, hdup]
  exact ⟨h1, by rw [h1]; rfl, by rw [h1]; rfl, by rw [h1]; rfl, by rw [h1]; rfl⟩

/-- C8 (witness): the MultiClonedData trace - the second seed with the
first list's id is rejected with one INTERNAL_ERROR and the first list's
fetch state survives. -/
theorem duplicate_listId_seed_witness :
    createList stateMulti1 seedMulti1 nearBoth = pushError stateMulti1 .internalError
    ∧ (createList stateMulti1 seedMulti1 nearBoth).lists = stateMulti1.lists
    ∧ (createList stateMulti1 seedMulti1 nearBoth).pending = stateMulti1.pending
    ∧ (createList stateMulti1 seedMulti1 nearBoth).events = stateMulti1.events
    ∧ (createList stateMulti1 seedMulti1 nearBoth).errors
        = stateMulti1.errors ++ [.internalError] :=
  duplicate_listId_seed stateMulti1 seedMulti1 nearBoth "vQdpOESlok1" "pageToken"
    listMulti1Seeded (by decide) (by decide) (by decide)

/-- C10: an accepted Backward splice of k items as seen by a Pager - the
current page index advances by exactly k, and the page displayed before
the splice is still the page displayed after it. -/
theorem pager_backward_splice (s : ProviderState Int) (e : UpdateEnvelope Int)
    (l : ListState Int) (c : Nat)
    (hinc : inconsistentCorrelation s.pending e.correlationToken e.listId = false)
    (hlk : lookupList s.lists e.listId = some l)
    (hne : e.items ≠ [])
    (hbw : some e.pageToken = l.backwardPageToken) :
    (processUpdate s (some e)).1 = true
    ∧ (∃ l', lookupList (processUpdate s (some e)).2.lists e.listId = some l'
        ∧ (PagerView.spliceBackward ⟨l.items, c⟩ e.items).pages = l'.items)
    ∧ (PagerView.spliceBackward ⟨l.items, c⟩ e.items).currentPage = c + e.items.length
    ∧ (PagerView.spliceBackward ⟨l.items, c⟩ e.items).pages[c + e.items.length]?
        = l.items[c]? := by
  rw [processUpdate_eq_of_bwd hinc hlk hne hbw]
  refine ⟨rfl, ⟨updateList l .bwd e.items e.nextPageToken, ?_, rfl⟩, rfl, ?_⟩
  · simp only [acceptSplice]
    exact replaceList_lookup hlk _ (by rw [updateList_listId]; exact lookupList_listId hlk)
  · show (e.items ++ l.items)[c + e.items.length]? = l.items[c]?
    rw [List.getElem?_append_right (by omega)]
    congr 1
    omega

/-- C10 (witness): the pager rule applied to the Container trace's
backward splice of ten items with the pager on page 0. -/
theorem pager_backward_splice_witness :
    (processUpdate stateContainer (some envAbsentCorrelation)).1 = true
    ∧ (PagerView.spliceBackward ⟨listDataSeeded.items, 0⟩ envAbsentCorrelation.items).currentPage
        = 0 + envAbsentCorrelation.items.length := by
  have h := pager_backward_splice stateContainer envAbsentCorrelation listDataSeeded 0
      (by decide) (by decide) (by decide) (by decide)
  exact ⟨h.1, h.2.2.1⟩

/-- C9: a fresh provider's counter stands at 100 so the first fetch carries
correlation "101"; the counter is shared across lists (the Multi seed pair
receives "101" then "102"), and every issued fetch increments it by exactly
one and serializes it as its decimal string. -/
theorem correlation_counter_from_101 :
    (createList (createList (freshProvider Int cfg100) seedMulti1 nearBoth)
        seedMulti2 nearBoth).events
      = [{ listId := "vQdpOESlok1", correlationToken := "101", pageToken := "forwardPageToken" },
         { listId := "vQdpOESlok2", correlationToken := "102", pageToken := "forwardPageToken" }]
    ∧ (freshProvider Int cfg100).lastToken = 100
    ∧ (∀ (α : Type) (s : ProviderState α) (lid : String) (d : Direction) (t : String) (a : Nat),
        (issueFetch s lid d t a).lastToken = s.lastToken + 1
        ∧ (issueFetch s lid d t a).events
            = s.events ++ [{ listId := lid, correlationToken := Nat.repr (s.lastToken + 1),
                             pageToken := t }]) := by
  refine ⟨by decide, rfl, ?_⟩
  intro α s lid d t a
  exact ⟨rfl, rfl⟩

end DynamicTokenList
